import Mathlib

/-!
Shallow embedding of the `airflow-provider-flightpath` package
(`flightpath_server_provider/hooks/flightpath_server.py` and
`flightpath_server_provider/operators/flightpath_server.py`) and proofs of the
specification claims about it.

The hook is a synchronous HTTP client: one call primitive (`_call_api`) posting
JSON to fixed endpoints, four convenience methods building payloads, and three
operator shims. We model HTTP as a function from the request that would be sent
to the observed result (a network-level failure or a response), the filesystem
effect of the pull-data operator as the list of (path, bytes) writes it
performs, and Python exceptions as an explicit error type threaded through
`Except`.
-/

namespace FlightPath

/-- Python exceptions that the modelled code can raise. `airflowException` is
`airflow.exceptions.AirflowException`; `nameError` models Python's run-time
`NameError` when a `raise` statement references a global that the module never
imported; `binasciiError` is `binascii.Error` from `base64.b64decode`;
`typeError` is raised by `b64decode` on a non-string argument;
`attributeError` models calling `.get` on a non-dict JSON value. -/
inductive PyError where
  | airflowException (msg : String)
  | nameError (name : String)
  | binasciiError (msg : String)
  | unicodeEncodeError
  | typeError (msg : String)
  | attributeError (msg : String)
deriving Repr, DecidableEq

/-- JSON values, as produced by `response.json()`. Numbers are modelled as
integers (no claim involves fractional numbers). -/
inductive Json where
  | null
  | bool (b : Bool)
  | num (n : Int)
  | str (s : String)
  | arr (xs : List Json)
  | obj (fields : List (String × Json))
deriving Repr

/-- Python truthiness of a JSON value (`None`, `False`, `0`, `""`, `[]`, `{}`
are falsy, everything else truthy). Used by `if not file_content_base64:`. -/
def pyTruthy : Json → Bool
  | Json.null => false
  | Json.bool b => b
  | Json.num n => n != 0
  | Json.str s => s ≠ ""
  | Json.arr xs => ¬ xs.isEmpty
  | Json.obj fs => ¬ fs.isEmpty

/-- `dict.get(k)` on the field list of a JSON object: the value if the key is
present, Python `None` (modelled as `Json.null`) otherwise. -/
def dictGet (fs : List (String × Json)) (k : String) : Json :=
  (fs.lookup k).getD Json.null

/-- Python truthiness of an `Optional[str]` (`None` and `""` are falsy), as in
`if template:` / `if not self.base_url:`. -/
def optStrTruthy : Option String → Bool
  | none => false
  | some s => s ≠ ""

/-- Escape of one character inside a JSON string literal, as `json.dumps`
does for the characters that occur in this client's payloads. -/
def jsonEscapeChar (c : Char) : String :=
  if c = '"' then "\\\""
  else if c = '\\' then "\\\\"
  else if c = '\n' then "\\n"
  else if c = '\t' then "\\t"
  else if c = '\r' then "\\r"
  else String.singleton c

/-- A JSON string literal: `json.dumps` of one string. -/
def jsonQuote (s : String) : String :=
  "\"" ++ String.join (s.toList.map jsonEscapeChar) ++ "\""

/-- `json.dumps` of a string-to-string dict, with the default separators
`", "` and `": "` and the dict's insertion order, e.g.
`jsonDumps [("a", "b")] = "\x7b\"a\": \"b\"\x7d"`. -/
def jsonDumps (data : List (String × String)) : String :=
  "\x7b" ++ String.intercalate ", " (data.map (fun kv => jsonQuote kv.1 ++ ": " ++ jsonQuote kv.2)) ++ "\x7d"

/-- `json.dumps` applied to the `data` argument of `_call_api`, which may be
`None` (serialized as `null`). -/
def jsonDumpsOpt : Option (List (String × String)) → String
  | some d => jsonDumps d
  | none => "null"

/-! ### base64 decoding (`base64.b64decode`, `validate=False`)

`b64decode` with the default `validate=False` delegates to
`binascii.a2b_base64` in non-strict mode: characters outside the base64
alphabet are skipped; a padding character `=` ends decoding once the current
quad has at least two data characters and enough accumulated padding;
a leftover partial quad at end of input is an error (`Incorrect padding`, or
the `1 more than a multiple of 4` error for a single leftover character).
Notably a string consisting only of padding (for example `"=="`) decodes to
zero bytes. A non-ASCII input string fails `s.encode("ascii")` first. -/

/-- Value of one character in the base64 alphabet, `none` for characters
outside it (including `=`). -/
def b64val (c : Char) : Option Nat :=
  if 'A' ≤ c ∧ c ≤ 'Z' then some (c.toNat - 65)
  else if 'a' ≤ c ∧ c ≤ 'z' then some (c.toNat - 71)
  else if '0' ≤ c ∧ c ≤ '9' then some (c.toNat + 4)
  else if c = '+' then some 62
  else if c = '/' then some 63
  else none

/-- The `binascii.a2b_base64` loop in non-strict mode. State: the position in
the current quad (0–3), the bits accumulated for the quad, and the count of
padding characters seen since the last data character. -/
def a2bBase64Loop : List Char → Nat → Nat → Nat → List Nat → Except String (List Nat)
  | [], quadPos, _, _, acc =>
    if quadPos = 0 then Except.ok acc
    else if quadPos = 1 then
      Except.error "Invalid base64-encoded string: number of data characters cannot be 1 more than a multiple of 4"
    else Except.error "Incorrect padding"
  | c :: rest, quadPos, leftchar, pads, acc =>
    if c = '=' then
      if 2 ≤ quadPos then
        if 4 ≤ quadPos + (pads + 1) then
          if quadPos = 2 then Except.ok (acc ++ [leftchar / 16])
          else Except.ok (acc ++ [leftchar / 1024, leftchar / 4 % 256])
        else a2bBase64Loop rest quadPos leftchar (pads + 1) acc
      else a2bBase64Loop rest quadPos leftchar pads acc
    else
      match b64val c with
      | none => a2bBase64Loop rest quadPos leftchar pads acc
      | some v =>
        match quadPos with
        | 0 => a2bBase64Loop rest 1 v 0 acc
        | 1 => a2bBase64Loop rest 2 (leftchar * 64 + v) 0 acc
        | 2 => a2bBase64Loop rest 3 (leftchar * 64 + v) 0 acc
        | _ =>
          a2bBase64Loop rest 0 0 0
            (acc ++ [(leftchar * 64 + v) / 65536, (leftchar * 64 + v) / 256 % 256, (leftchar * 64 + v) % 256])

/-- `base64.b64decode` on a Python `str` argument: encode to ASCII (failure is
a `UnicodeEncodeError`), then run the non-strict `a2b_base64` loop (failure is
a `binascii.Error`). -/
def b64decode (s : String) : Except PyError (List Nat) :=
  if s.toList.all (fun c => c.toNat < 128) then
    match a2bBase64Loop s.toList 0 0 0 [] with
    | Except.ok bs => Except.ok bs
    | Except.error e => Except.error (PyError.binasciiError e)
  else Except.error PyError.unicodeEncodeError

/-! ### Connection profile and hook construction -/

/-- The fields of the resolved Airflow connection that the hook reads:
`conn.host` (base URL) and `conn.password` (API key). Either may be absent. -/
structure Connection where
  host : Option String
  password : Option String
deriving Repr, DecidableEq

/-- The state a successfully constructed `FlightPathServerHook` holds:
`self.base_url`, `self.api_key` and `self.headers`. -/
structure Hook where
  base_url : String
  api_key : String
  headers : List (String × String)
deriving Repr, DecidableEq

/-- `FlightPathServerHook.__init__` after the connection is resolved: store
host and password, raise `AirflowException` if the base URL is falsy, then if
the API key is falsy, and otherwise build the fixed header dict. -/
def hookInit (conn : Connection) : Except PyError Hook :=
  if optStrTruthy conn.host = false then
    Except.error (PyError.airflowException "FlightPath Server base URL not found in connection.")
  else if optStrTruthy conn.password = false then
    Except.error (PyError.airflowException "FlightPath Server API key not found in connection (password field).")
  else
    Except.ok
      { base_url := conn.host.getD ""
        api_key := conn.password.getD ""
        headers :=
          [("access_token", conn.password.getD ""),
           ("Content-Type", "application/json"),
           ("Accept", "application/json")] }

/-! ### The call primitive -/

/-- An HTTP request as handed to `requests.post`. -/
structure Request where
  method : String
  url : String
  headers : List (String × String)
  body : String
deriving Repr, DecidableEq

/-- What `response.json()` yields: a JSON value, or the message of the
`json.JSONDecodeError` when the body is not parsable. -/
structure HttpResponse where
  status : Nat
  reason : String
  text : String
  jsonResult : Except String Json
deriving Repr

/-- Result of handing a request to the network: a network-level failure
(`requests.exceptions.RequestException` raised by `requests.post` itself, with
its message) or a response. -/
inductive HttpResult where
  | netError (msg : String)
  | got (resp : HttpResponse)
deriving Repr

/-- The environment: what the network does with the request that is sent. -/
def HttpWorld := Request → HttpResult

/-- `response.raise_for_status()` from the `requests` library: an `HTTPError`
(whose message is returned here) for a 4xx or 5xx status, nothing otherwise. -/
def raiseForStatus (url : String) (r : HttpResponse) : Option String :=
  if 400 ≤ r.status ∧ r.status < 500 then
    some (toString r.status ++ " Client Error: " ++ r.reason ++ " for url: " ++ url)
  else if 500 ≤ r.status ∧ r.status < 600 then
    some (toString r.status ++ " Server Error: " ++ r.reason ++ " for url: " ++ url)
  else none

/-- `FlightPathServerHook._call_api`. Returns the list of HTTP requests
actually sent together with the outcome. A non-`POST` method raises
`AirflowException` before any request is sent; `requests` failures (network
errors and the `HTTPError` from `raise_for_status`) are re-raised as
`AirflowException` with the `FlightPath Server API call failed` message; a
body that fails to parse as JSON is re-raised as `AirflowException` with a
message ending in the raw `response.text`. -/
def call_api (hook : Hook) (endpoint : String) (method : String)
    (data : Option (List (String × String))) (world : HttpWorld) :
    List Request × Except PyError Json :=
  let url := hook.base_url ++ endpoint
  if method = "POST" then
    let req : Request := ⟨"POST", url, hook.headers, jsonDumpsOpt data⟩
    match world req with
    | HttpResult.netError e =>
      ([req], Except.error (PyError.airflowException ("FlightPath Server API call failed: " ++ e)))
    | HttpResult.got resp =>
      match raiseForStatus url resp with
      | some e =>
        ([req], Except.error (PyError.airflowException ("FlightPath Server API call failed: " ++ e)))
      | none =>
        match resp.jsonResult with
        | Except.ok j => ([req], Except.ok j)
        | Except.error e =>
          ([req],
           Except.error (PyError.airflowException
             ("Failed to decode JSON response from FlightPath Server: " ++ e ++ ", Response: " ++ resp.text)))
  else ([], Except.error (PyError.airflowException ("Unsupported HTTP method: " ++ method)))

/-! ### The four convenience methods

Each builds its payload dict in insertion order (optional fields appended only
when truthy, mirroring `if template: data["template"] = template`) and routes
through the call primitive with its fixed endpoint and `method="POST"`. -/

/-- The payload dict built by `FlightPathServerHook.register_file`. -/
def register_file_payload (project_name name file_location : String)
    (template : Option String) : List (String × String) :=
  let data := [("project_name", project_name), ("name", name), ("file_location", file_location)]
  if optStrTruthy template then data ++ [("template", template.getD "")] else data

/-- `FlightPathServerHook.register_file`. -/
def register_file (hook : Hook) (project_name name file_location : String)
    (template : Option String) (world : HttpWorld) : List Request × Except PyError Json :=
  call_api hook "/csvpath/register_file" "POST"
    (some (register_file_payload project_name name file_location template)) world

/-- The default of the `method` parameter of `FlightPathServerHook.register_and_run`. -/
def register_and_run_default_method : String := "collect_paths"

/-- The payload dict built by `FlightPathServerHook.register_and_run`; the
`method` key is always present. -/
def register_and_run_payload (project_name file_location file_name csvpaths_group_name : String)
    (method : String) (file_template run_template : Option String) : List (String × String) :=
  let data :=
    [("project_name", project_name), ("file_location", file_location),
     ("file_name", file_name), ("csvpaths_group_name", csvpaths_group_name),
     ("method", method)]
  let data :=
    if optStrTruthy file_template then data ++ [("file_template", file_template.getD "")] else data
  if optStrTruthy run_template then data ++ [("run_template", run_template.getD "")] else data

/-- `FlightPathServerHook.register_and_run`; a call that does not supply the
`method` argument passes `register_and_run_default_method`. -/
def register_and_run (hook : Hook)
    (project_name file_location file_name csvpaths_group_name : String)
    (method : String) (file_template run_template : Option String)
    (world : HttpWorld) : List Request × Except PyError Json :=
  call_api hook "/csvpath/register_and_run" "POST"
    (some (register_and_run_payload project_name file_location file_name csvpaths_group_name
      method file_template run_template)) world

/-- The payload dict built by `FlightPathServerHook.find_files`. -/
def find_files_payload (project_name reference : String) : List (String × String) :=
  [("project_name", project_name), ("reference", reference)]

/-- `FlightPathServerHook.find_files`. -/
def find_files (hook : Hook) (project_name reference : String) (world : HttpWorld) :
    List Request × Except PyError Json :=
  call_api hook "/find/find_files" "POST" (some (find_files_payload project_name reference)) world

/-- The payload dict built by `FlightPathServerHook.get_file`. -/
def get_file_payload (project_name reference : String) : List (String × String) :=
  [("project_name", project_name), ("reference", reference)]

/-- `FlightPathServerHook.get_file`. -/
def get_file (hook : Hook) (project_name reference : String) (world : HttpWorld) :
    List Request × Except PyError Json :=
  call_api hook "/find/get_file" "POST" (some (get_file_payload project_name reference)) world

/-! ### The operators (`flightpath_server_provider/operators/flightpath_server.py`)

Each operator's `execute` constructs a hook from the connection and calls one
convenience method. The operators module imports `base64`, `typing.Any`,
`BaseOperator` and `FlightPathServerHook` — and nothing else — so any other
global referenced at run time (in particular `AirflowException`, which the
module raises but never imports) resolves to a `NameError`. -/

/-- The global names available in the operators module: its imports and the
three classes it defines (the `from __future__ import annotations` line binds
no run-time global that matters here). `AirflowException` is absent. -/
def operatorsModuleGlobals : List String :=
  ["base64", "Any", "BaseOperator", "FlightPathServerHook",
   "FlightPathServerRegisterFileOperator", "FlightPathServerRegisterAndRunOperator",
   "FlightPathServerPullDataOperator"]

/-- A `raise NAME(...)` statement executed inside the operators module: the
intended exception if `NAME` is a module global, otherwise Python's
`NameError` for `NAME` (built-ins contain no Airflow exception class). -/
def raiseInOperatorsModule (name : String) (e : PyError) : PyError :=
  if operatorsModuleGlobals.contains name then e else PyError.nameError name

/-- Constructor arguments of `FlightPathServerRegisterAndRunOperator`; the
default of its `method` parameter is `registerAndRunOperatorDefaultMethod`. -/
structure RegisterAndRunOperator where
  project_name : String
  file_location : String
  file_name : String
  csvpaths_group_name : String
  method : String
  file_template : Option String
  run_template : Option String
deriving Repr, DecidableEq

/-- The default of the `method` parameter of
`FlightPathServerRegisterAndRunOperator.__init__`. -/
def registerAndRunOperatorDefaultMethod : String := "collect_paths"

/-- `FlightPathServerRegisterAndRunOperator.execute`: build the hook, forward
every stored field to `register_and_run`, return its response. -/
def registerAndRunExecute (op : RegisterAndRunOperator) (conn : Connection)
    (world : HttpWorld) : List Request × Except PyError Json :=
  match hookInit conn with
  | Except.error e => ([], Except.error e)
  | Except.ok hook =>
    register_and_run hook op.project_name op.file_location op.file_name
      op.csvpaths_group_name op.method op.file_template op.run_template world

/-- Constructor arguments of `FlightPathServerPullDataOperator`. -/
structure PullDataOperator where
  project_name : String
  reference : String
  output_path : String
deriving Repr, DecidableEq

/-- `FlightPathServerPullDataOperator.execute`: build the hook, call
`get_file`, read the `file` field of the response; a falsy value takes the
`raise AirflowException("No file content received from FlightPath Server.")`
statement (which, `AirflowException` being absent from the module's globals,
raises `NameError`); a truthy string is base64-decoded and its bytes written
to `output_path`, which is returned. The middle component of the result is
the list of (path, bytes) filesystem writes performed. -/
def pullDataExecute (op : PullDataOperator) (conn : Connection) (world : HttpWorld) :
    List Request × List (String × List Nat) × Except PyError String :=
  match hookInit conn with
  | Except.error e => ([], [], Except.error e)
  | Except.ok hook =>
    match get_file hook op.project_name op.reference world with
    | (reqs, Except.error e) => (reqs, [], Except.error e)
    | (reqs, Except.ok response) =>
      match response with
      | Json.obj fs =>
        let file_content_base64 := dictGet fs "file"
        if pyTruthy file_content_base64 = false then
          (reqs, [],
           Except.error (raiseInOperatorsModule "AirflowException"
             (PyError.airflowException "No file content received from FlightPath Server.")))
        else
          match file_content_base64 with
          | Json.str s =>
            match b64decode s with
            | Except.ok file_content => (reqs, [(op.output_path, file_content)], Except.ok op.output_path)
            | Except.error e => (reqs, [], Except.error e)
          | _ =>
            (reqs, [],
             Except.error (PyError.typeError "argument should be a bytes-like object or ASCII string"))
      | _ => (reqs, [], Except.error (PyError.attributeError "get"))

/-! ### Substring occurrence (for "the message includes the raw text") -/

/-- `seqStartsAt needle hay`: `needle` is an initial segment of `hay`. -/
def seqStartsAt : List Char → List Char → Bool
  | [], _ => true
  | _ :: _, [] => false
  | d :: ds, c :: cs => d == c && seqStartsAt ds cs

/-- `listHasSeq hay needle`: `needle` occurs contiguously inside `hay`. -/
def listHasSeq : List Char → List Char → Bool
  | [], needle => needle.isEmpty
  | c :: cs, needle => seqStartsAt needle (c :: cs) || listHasSeq cs needle

/-- `strContainsStr hay needle`: `needle` occurs contiguously inside `hay`. -/
def strContainsStr (hay needle : String) : Bool :=
  listHasSeq hay.toList needle.toList

/-! ### Helper lemmas -/

theorem seqStartsAt_append (n q : List Char) : seqStartsAt n (n ++ q) = true := by
  induction n with
  | nil => rfl
  | cons c cs ih => simp [seqStartsAt, ih]

theorem listHasSeq_nil_needle (hay : List Char) : listHasSeq hay [] = true := by
  cases hay <;> simp [listHasSeq, seqStartsAt]

theorem listHasSeq_append_mid (p n q : List Char) : listHasSeq (p ++ n ++ q) n = true := by
  induction p with
  | nil =>
    cases n with
    | nil => simpa using listHasSeq_nil_needle q
    | cons c cs =>
      have h := seqStartsAt_append (c :: cs) q
      simp only [List.nil_append, List.cons_append, listHasSeq, Bool.or_eq_true]
      simp only [List.cons_append] at h
      exact Or.inl h
  | cons c cs ih =>
    simp only [List.cons_append, listHasSeq, Bool.or_eq_true]
    exact Or.inr ih

theorem strToList_append (a b : String) : (a ++ b).toList = a.toList ++ b.toList :=
  String.data_append a b

theorem strContainsStr_append_right (x t : String) : strContainsStr (x ++ t) t = true := by
  show listHasSeq (x ++ t).toList t.toList = true
  have h : (x ++ t).toList = x.toList ++ t.toList ++ [] := by
    simp [strToList_append]
  rw [h]
  exact listHasSeq_append_mid _ _ _

theorem strContainsStr_of_toList (hay needle : String) (p q : List Char)
    (h : hay.toList = p ++ needle.toList ++ q) : strContainsStr hay needle = true := by
  show listHasSeq hay.toList needle.toList = true
  rw [h]
  exact listHasSeq_append_mid _ _ _

theorem strContainsStr_mid (a b c : String) : strContainsStr (a ++ b ++ c) b = true := by
  show listHasSeq (a ++ b ++ c).toList b.toList = true
  have h : (a ++ b ++ c).toList = a.toList ++ b.toList ++ c.toList := by
    simp [strToList_append]
  rw [h]
  exact listHasSeq_append_mid _ _ _

/-- Headers of a hook that `hookInit` successfully constructed: the exact
three-entry dict built from the API key. -/
theorem hookInit_headers (conn : Connection) (hook : Hook)
    (h : hookInit conn = Except.ok hook) :
    hook.headers =
      [("access_token", hook.api_key), ("Content-Type", "application/json"),
       ("Accept", "application/json")] := by
  unfold hookInit at h
  split at h
  · exact absurd h (by simp)
  · split at h
    · exact absurd h (by simp)
    · injection h with h'
      subst h'
      rfl

/-- The call primitive with `method="POST"` sends exactly one request, with
the hook's headers, the concatenated URL, and the serialized payload as body,
whatever the network then does. -/
theorem call_api_post_requests (hook : Hook) (endpoint : String)
    (data : Option (List (String × String))) (world : HttpWorld) :
    (call_api hook endpoint "POST" data world).1 =
      [⟨"POST", hook.base_url ++ endpoint, hook.headers, jsonDumpsOpt data⟩] := by
  simp only [call_api, if_pos rfl]
  cases hw : world ⟨"POST", hook.base_url ++ endpoint, hook.headers, jsonDumpsOpt data⟩ with
  | netError e => simp
  | got resp =>
    cases hrs : raiseForStatus (hook.base_url ++ endpoint) resp with
    | none => cases hjr : resp.jsonResult <;> simp [hrs, hjr]
    | some e => simp [hrs]

/-! ### The claims -/

/-- Claim C10: for every call to the call primitive with an HTTP method other
than `"POST"`, it raises `AirflowException` ("Unsupported HTTP method") and no
HTTP request is sent at all. -/
theorem c10_non_post_method_unsupported (hook : Hook) (endpoint method : String)
    (data : Option (List (String × String))) (world : HttpWorld)
    (h : method ≠ "POST") :
    call_api hook endpoint method data world =
      ([], Except.error (PyError.airflowException ("Unsupported HTTP method: " ++ method))) := by
  simp [call_api, h]

/-- Witness for C10 at the concrete method `"GET"`. -/
theorem c10_witness :
    call_api ⟨"http://h", "k", [("access_token", "k")]⟩ "/find/find_files" "GET" none
        (fun _ => HttpResult.netError "unreachable") =
      ([], Except.error (PyError.airflowException "Unsupported HTTP method: GET")) :=
  c10_non_post_method_unsupported _ _ "GET" _ _ (by decide)

/-- Claim C7: a connection profile with a missing (absent or empty) base URL
or API key makes hook construction raise `AirflowException`; with both
present, construction succeeds (yielding the stored fields and headers). -/
theorem c7_init_requires_url_and_key (conn : Connection) :
    ((optStrTruthy conn.host = false ∨ optStrTruthy conn.password = false) →
      ∃ msg, hookInit conn = Except.error (PyError.airflowException msg)) ∧
    (optStrTruthy conn.host = true → optStrTruthy conn.password = true →
      hookInit conn = Except.ok
        { base_url := conn.host.getD "", api_key := conn.password.getD "",
          headers :=
            [("access_token", conn.password.getD ""),
             ("Content-Type", "application/json"),
             ("Accept", "application/json")] }) := by
  constructor
  · intro h
    cases h1 : optStrTruthy conn.host with
    | false =>
      exact ⟨"FlightPath Server base URL not found in connection.", by simp [hookInit, h1]⟩
    | true =>
      cases h2 : optStrTruthy conn.password with
      | false =>
        exact ⟨"FlightPath Server API key not found in connection (password field).",
          by simp [hookInit, h1, h2]⟩
      | true => simp [h1, h2] at h
  · intro h1 h2
    simp [hookInit, h1, h2]

/-- Witness for C7: a profile with no host raises; a full profile
constructs the hook. -/
theorem c7_witness :
    (∃ msg, hookInit ⟨none, some "k"⟩ = Except.error (PyError.airflowException msg)) ∧
    hookInit ⟨some "http://h", some "k"⟩ = Except.ok
      ⟨"http://h", "k",
       [("access_token", "k"), ("Content-Type", "application/json"),
        ("Accept", "application/json")]⟩ :=
  ⟨(c7_init_requires_url_and_key ⟨none, some "k"⟩).1 (Or.inl (by decide)),
   (c7_init_requires_url_and_key ⟨some "http://h", some "k"⟩).2 (by decide) (by decide)⟩

/-- Claim C4: with `template` omitted (`None`) the `template` key is absent
from the `register_file` payload, and with `file_template` and/or
`run_template` omitted the corresponding key is absent from the
`register_and_run` payload (whatever the other optional argument is). -/
theorem c4_omitted_optionals_absent (project_name name file_location file_name
    csvpaths_group_name method : String) (ft rt : Option String) :
    "template" ∉ (register_file_payload project_name name file_location none).map Prod.fst ∧
    "file_template" ∉ (register_and_run_payload project_name file_location file_name
      csvpaths_group_name method none rt).map Prod.fst ∧
    "run_template" ∉ (register_and_run_payload project_name file_location file_name
      csvpaths_group_name method ft none).map Prod.fst := by
  refine ⟨by simp [register_file_payload, optStrTruthy], ?_, ?_⟩
  · cases hrt : optStrTruthy rt <;>
      simp [register_and_run_payload, hrt, show optStrTruthy none = false from rfl]
  · cases hft : optStrTruthy ft <;>
      simp [register_and_run_payload, hft, show optStrTruthy none = false from rfl]

/-- Claim C5: with a hook built from a valid connection profile, each of the
four convenience methods sends exactly one HTTP POST, to its fixed path, with
the JSON serialization of the built payload as body and exactly the headers
`access_token`, `Content-Type: application/json`, `Accept: application/json`. -/
theorem c5_each_method_sends_one_post (conn : Connection) (hook : Hook)
    (h : hookInit conn = Except.ok hook) (world : HttpWorld)
    (project_name name file_location file_name csvpaths_group_name method
      reference₁ reference₂ : String) (template file_template run_template : Option String) :
    (register_file hook project_name name file_location template world).1 =
      [⟨"POST", hook.base_url ++ "/csvpath/register_file",
        [("access_token", hook.api_key), ("Content-Type", "application/json"),
         ("Accept", "application/json")],
        jsonDumps (register_file_payload project_name name file_location template)⟩] ∧
    (register_and_run hook project_name file_location file_name csvpaths_group_name
        method file_template run_template world).1 =
      [⟨"POST", hook.base_url ++ "/csvpath/register_and_run",
        [("access_token", hook.api_key), ("Content-Type", "application/json"),
         ("Accept", "application/json")],
        jsonDumps (register_and_run_payload project_name file_location file_name
          csvpaths_group_name method file_template run_template)⟩] ∧
    (find_files hook project_name reference₁ world).1 =
      [⟨"POST", hook.base_url ++ "/find/find_files",
        [("access_token", hook.api_key), ("Content-Type", "application/json"),
         ("Accept", "application/json")],
        jsonDumps (find_files_payload project_name reference₁)⟩] ∧
    (get_file hook project_name reference₂ world).1 =
      [⟨"POST", hook.base_url ++ "/find/get_file",
        [("access_token", hook.api_key), ("Content-Type", "application/json"),
         ("Accept", "application/json")],
        jsonDumps (get_file_payload project_name reference₂)⟩] := by
  have hh := hookInit_headers conn hook h
  refine ⟨?_, ?_, ?_, ?_⟩ <;>
    simp [register_file, register_and_run, find_files, get_file,
      call_api_post_requests, hh, jsonDumpsOpt]

/-- Witness for C5 at a concrete profile and concrete arguments; the bodies
are the evaluated `json.dumps` serializations. -/
theorem c5_witness :
    (register_file ⟨"http://h", "k",
        [("access_token", "k"), ("Content-Type", "application/json"),
         ("Accept", "application/json")]⟩ "p" "n" "l" none
        (fun _ => HttpResult.netError "down")).1 =
      [⟨"POST", "http://h/csvpath/register_file",
        [("access_token", "k"), ("Content-Type", "application/json"),
         ("Accept", "application/json")],
        "\x7b\"project_name\": \"p\", \"name\": \"n\", \"file_location\": \"l\"\x7d"⟩] ∧
    (register_and_run ⟨"http://h", "k",
        [("access_token", "k"), ("Content-Type", "application/json"),
         ("Accept", "application/json")]⟩ "p" "l" "f" "g" "collect_paths" none none
        (fun _ => HttpResult.netError "down")).1 =
      [⟨"POST", "http://h/csvpath/register_and_run",
        [("access_token", "k"), ("Content-Type", "application/json"),
         ("Accept", "application/json")],
        "\x7b\"project_name\": \"p\", \"file_location\": \"l\", \"file_name\": \"f\", \"csvpaths_group_name\": \"g\", \"method\": \"collect_paths\"\x7d"⟩] ∧
    (find_files ⟨"http://h", "k",
        [("access_token", "k"), ("Content-Type", "application/json"),
         ("Accept", "application/json")]⟩ "p" "ref1"
        (fun _ => HttpResult.netError "down")).1 =
      [⟨"POST", "http://h/find/find_files",
        [("access_token", "k"), ("Content-Type", "application/json"),
         ("Accept", "application/json")],
        "\x7b\"project_name\": \"p\", \"reference\": \"ref1\"\x7d"⟩] ∧
    (get_file ⟨"http://h", "k",
        [("access_token", "k"), ("Content-Type", "application/json"),
         ("Accept", "application/json")]⟩ "p" "ref2"
        (fun _ => HttpResult.netError "down")).1 =
      [⟨"POST", "http://h/find/get_file",
        [("access_token", "k"), ("Content-Type", "application/json"),
         ("Accept", "application/json")],
        "\x7b\"project_name\": \"p\", \"reference\": \"ref2\"\x7d"⟩] :=
  c5_each_method_sends_one_post ⟨some "http://h", some "k"⟩ _ rfl
    (fun _ => HttpResult.netError "down") "p" "n" "l" "f" "g" "collect_paths"
    "ref1" "ref2" none none none

/-- Claim C8: `register_and_run`'s `method` parameter defaults to
`"collect_paths"`; the `method` key is present in the payload on every call;
and the register-and-run operator declares the same default and forwards it
to the hook. -/
theorem c8_method_default_and_always_present (project_name file_location file_name
    csvpaths_group_name method : String) (file_template run_template : Option String)
    (conn : Connection) (hook : Hook) (world : HttpWorld)
    (h : hookInit conn = Except.ok hook) :
    register_and_run_default_method = "collect_paths" ∧
    registerAndRunOperatorDefaultMethod = register_and_run_default_method ∧
    ("method", method) ∈ register_and_run_payload project_name file_location file_name
      csvpaths_group_name method file_template run_template ∧
    registerAndRunExecute
        ⟨project_name, file_location, file_name, csvpaths_group_name,
         registerAndRunOperatorDefaultMethod, file_template, run_template⟩ conn world =
      register_and_run hook project_name file_location file_name csvpaths_group_name
        "collect_paths" file_template run_template world := by
  refine ⟨rfl, rfl, ?_, ?_⟩
  · unfold register_and_run_payload
    split <;> split <;> simp
  · simp [registerAndRunExecute, h, registerAndRunOperatorDefaultMethod]

/-- Witness for C8 at a concrete profile and arguments. -/
theorem c8_witness :
    register_and_run_default_method = "collect_paths" ∧
    registerAndRunOperatorDefaultMethod = register_and_run_default_method ∧
    ("method", "collect_paths") ∈ register_and_run_payload "p" "l" "f" "g"
      "collect_paths" none none ∧
    registerAndRunExecute
        ⟨"p", "l", "f", "g", registerAndRunOperatorDefaultMethod, none, none⟩
        ⟨some "http://h", some "k"⟩ (fun _ => HttpResult.netError "down") =
      register_and_run ⟨"http://h", "k",
        [("access_token", "k"), ("Content-Type", "application/json"),
         ("Accept", "application/json")]⟩ "p" "l" "f" "g" "collect_paths" none none
        (fun _ => HttpResult.netError "down") :=
  c8_method_default_and_always_present "p" "l" "f" "g" "collect_paths" none none
    ⟨some "http://h", some "k"⟩ _ (fun _ => HttpResult.netError "down") rfl

/-- Claim C6, amended: for every HTTP response with a 4xx or 5xx status the
call primitive raises `AirflowException` whose message contains the
underlying failure reason (the status code and the reason phrase), and no
JSON value is returned. (The claim's "every non-2xx status" is too wide:
`raise_for_status` only raises for 4xx/5xx, see `c6_counterexample`.) -/
theorem c6_error_status_raises (hook : Hook) (endpoint : String)
    (data : Option (List (String × String))) (world : HttpWorld) (resp : HttpResponse)
    (hw : world ⟨"POST", hook.base_url ++ endpoint, hook.headers, jsonDumpsOpt data⟩ =
      HttpResult.got resp)
    (hs : 400 ≤ resp.status) (hs' : resp.status < 600) :
    ∃ msg, call_api hook endpoint "POST" data world =
      ([⟨"POST", hook.base_url ++ endpoint, hook.headers, jsonDumpsOpt data⟩],
       Except.error (PyError.airflowException msg)) ∧
      strContainsStr msg resp.reason = true ∧
      strContainsStr msg (toString resp.status) = true := by
  by_cases h5 : resp.status < 500
  · have hrs : raiseForStatus (hook.base_url ++ endpoint) resp =
        some (toString resp.status ++ " Client Error: " ++ resp.reason ++ " for url: " ++
          (hook.base_url ++ endpoint)) := by
      unfold raiseForStatus
      rw [if_pos ⟨hs, h5⟩]
    refine ⟨"FlightPath Server API call failed: " ++
      (toString resp.status ++ " Client Error: " ++ resp.reason ++ " for url: " ++
        (hook.base_url ++ endpoint)), ?_, ?_, ?_⟩
    · simp only [call_api, if_pos rfl]
      rw [hw]
      simp [hrs]
    · exact strContainsStr_of_toList _ _
        ("FlightPath Server API call failed: ".toList ++ (toString resp.status).toList ++
          " Client Error: ".toList)
        (" for url: ".toList ++ (hook.base_url ++ endpoint).toList)
        (by simp only [strToList_append, List.append_assoc])
    · exact strContainsStr_of_toList _ _
        "FlightPath Server API call failed: ".toList
        (" Client Error: ".toList ++ resp.reason.toList ++ " for url: ".toList ++
          (hook.base_url ++ endpoint).toList)
        (by simp only [strToList_append, List.append_assoc])
  · have hrs : raiseForStatus (hook.base_url ++ endpoint) resp =
        some (toString resp.status ++ " Server Error: " ++ resp.reason ++ " for url: " ++
          (hook.base_url ++ endpoint)) := by
      unfold raiseForStatus
      rw [if_neg (by omega), if_pos ⟨by omega, hs'⟩]
    refine ⟨"FlightPath Server API call failed: " ++
      (toString resp.status ++ " Server Error: " ++ resp.reason ++ " for url: " ++
        (hook.base_url ++ endpoint)), ?_, ?_, ?_⟩
    · simp only [call_api, if_pos rfl]
      rw [hw]
      simp [hrs]
    · exact strContainsStr_of_toList _ _
        ("FlightPath Server API call failed: ".toList ++ (toString resp.status).toList ++
          " Server Error: ".toList)
        (" for url: ".toList ++ (hook.base_url ++ endpoint).toList)
        (by simp only [strToList_append, List.append_assoc])
    · exact strContainsStr_of_toList _ _
        "FlightPath Server API call failed: ".toList
        (" Server Error: ".toList ++ resp.reason.toList ++ " for url: ".toList ++
          (hook.base_url ++ endpoint).toList)
        (by simp only [strToList_append, List.append_assoc])

/-- Witness for C6 at a concrete 404 response. -/
theorem c6_witness :
    ∃ msg, call_api ⟨"http://h", "k",
        [("access_token", "k"), ("Content-Type", "application/json"),
         ("Accept", "application/json")]⟩ "/find/find_files" "POST"
        (some (find_files_payload "p" "r"))
        (fun _ => HttpResult.got ⟨404, "Not Found", "err", Except.error "Expecting value"⟩) =
      ([⟨"POST", "http://h/find/find_files",
         [("access_token", "k"), ("Content-Type", "application/json"),
          ("Accept", "application/json")],
         "\x7b\"project_name\": \"p\", \"reference\": \"r\"\x7d"⟩],
       Except.error (PyError.airflowException msg)) ∧
      strContainsStr msg "Not Found" = true ∧
      strContainsStr msg "404" = true :=
  c6_error_status_raises _ "/find/find_files" (some (find_files_payload "p" "r")) _
    ⟨404, "Not Found", "err", Except.error "Expecting value"⟩ rfl (by decide) (by decide)

/-- Counterexample to C6 as stated: a response with the non-2xx status 300
and a parsable JSON body raises nothing — `raise_for_status` only raises for
4xx/5xx — and the JSON value is returned to the caller. -/
theorem c6_counterexample :
    call_api ⟨"http://h", "k",
        [("access_token", "k"), ("Content-Type", "application/json"),
         ("Accept", "application/json")]⟩ "/find/find_files" "POST"
        (some (find_files_payload "p" "r"))
        (fun _ => HttpResult.got ⟨300, "Multiple Choices", "\x7b\"paths\": []\x7d",
          Except.ok (Json.obj [("paths", Json.arr [])])⟩) =
      ([⟨"POST", "http://h/find/find_files",
         [("access_token", "k"), ("Content-Type", "application/json"),
          ("Accept", "application/json")],
         "\x7b\"project_name\": \"p\", \"reference\": \"r\"\x7d"⟩],
       Except.ok (Json.obj [("paths", Json.arr [])])) := by
  rfl

/-- Claim C1, amended: for every response with an HTTP status outside
400–599 whose body is not parsable as JSON, the call primitive raises
`AirflowException` and that error's message includes the raw response text.
(For a 4xx/5xx response with an unparsable body, `raise_for_status` fires
first and the raised message does not include the body, see
`c1_counterexample`.) -/
theorem c1_parse_failure_error_includes_raw_text (hook : Hook) (endpoint : String)
    (data : Option (List (String × String))) (world : HttpWorld) (resp : HttpResponse)
    (e : String)
    (hw : world ⟨"POST", hook.base_url ++ endpoint, hook.headers, jsonDumpsOpt data⟩ =
      HttpResult.got resp)
    (hs : resp.status < 400 ∨ 600 ≤ resp.status)
    (hj : resp.jsonResult = Except.error e) :
    ∃ msg, call_api hook endpoint "POST" data world =
      ([⟨"POST", hook.base_url ++ endpoint, hook.headers, jsonDumpsOpt data⟩],
       Except.error (PyError.airflowException msg)) ∧
      strContainsStr msg resp.text = true := by
  have hrs : raiseForStatus (hook.base_url ++ endpoint) resp = none := by
    unfold raiseForStatus
    rcases hs with h | h
    · rw [if_neg (by omega), if_neg (by omega)]
    · rw [if_neg (by omega), if_neg (by omega)]
  refine ⟨"Failed to decode JSON response from FlightPath Server: " ++ e ++
    ", Response: " ++ resp.text, ?_, ?_⟩
  · simp only [call_api, if_pos rfl]
    rw [hw]
    simp [hrs, hj]
  · exact strContainsStr_append_right _ _

/-- Witness for C1 at a concrete 200 response with the body `oops`. -/
theorem c1_witness :
    ∃ msg, call_api ⟨"http://h", "k",
        [("access_token", "k"), ("Content-Type", "application/json"),
         ("Accept", "application/json")]⟩ "/find/get_file" "POST"
        (some (get_file_payload "p" "r"))
        (fun _ => HttpResult.got ⟨200, "OK", "oops",
          Except.error "Expecting value: line 1 column 1 (char 0)"⟩) =
      ([⟨"POST", "http://h/find/get_file",
         [("access_token", "k"), ("Content-Type", "application/json"),
          ("Accept", "application/json")],
         "\x7b\"project_name\": \"p\", \"reference\": \"r\"\x7d"⟩],
       Except.error (PyError.airflowException msg)) ∧
      strContainsStr msg "oops" = true :=
  c1_parse_failure_error_includes_raw_text _ "/find/get_file"
    (some (get_file_payload "p" "r")) _
    ⟨200, "OK", "oops", Except.error "Expecting value: line 1 column 1 (char 0)"⟩ _
    rfl (Or.inl (by decide)) rfl

/-- Counterexample to C1 as stated: a 404 response whose body is not parsable
as JSON raises the status-failure `AirflowException`, whose message does not
include the raw response text. -/
theorem c1_counterexample :
    call_api ⟨"http://h", "k",
        [("access_token", "k"), ("Content-Type", "application/json"),
         ("Accept", "application/json")]⟩ "/find/get_file" "POST"
        (some (get_file_payload "p" "r"))
        (fun _ => HttpResult.got ⟨404, "Not Found", "<html>gone</html>",
          Except.error "Expecting value: line 1 column 1 (char 0)"⟩) =
      ([⟨"POST", "http://h/find/get_file",
         [("access_token", "k"), ("Content-Type", "application/json"),
          ("Accept", "application/json")],
         "\x7b\"project_name\": \"p\", \"reference\": \"r\"\x7d"⟩],
       Except.error (PyError.airflowException
         "FlightPath Server API call failed: 404 Client Error: Not Found for url: http://h/find/get_file")) ∧
    strContainsStr
      "FlightPath Server API call failed: 404 Client Error: Not Found for url: http://h/find/get_file"
      "<html>gone</html>" = false := by
  exact ⟨rfl, rfl⟩

/-- Helper: the pull-data `execute` on a get-file response whose `file` field
is falsy (absent, `null`, `""`, `0`, `false`, `[]`, `{}`) performs no
filesystem write and raises — the `raise AirflowException(...)` statement
resolving to a `NameError` because the operators module never imports
`AirflowException`. -/
theorem pullDataExecute_falsy_file (op : PullDataOperator) (conn : Connection)
    (hook : Hook) (world : HttpWorld) (reqs : List Request) (fs : List (String × Json))
    (h : hookInit conn = Except.ok hook)
    (hg : get_file hook op.project_name op.reference world = (reqs, Except.ok (Json.obj fs)))
    (hfalsy : pyTruthy (dictGet fs "file") = false) :
    pullDataExecute op conn world =
      (reqs, [], Except.error (PyError.nameError "AirflowException")) := by
  simp only [pullDataExecute, h, hg, hfalsy]
  rfl

/-- Helper: the pull-data `execute` on a get-file response whose `file` field
is a truthy string that base64-decodes successfully writes exactly the decoded
bytes to `output_path` and returns `output_path`. -/
theorem pullDataExecute_write (op : PullDataOperator) (conn : Connection)
    (hook : Hook) (world : HttpWorld) (reqs : List Request) (fs : List (String × Json))
    (s : String) (bytes : List Nat)
    (h : hookInit conn = Except.ok hook)
    (hg : get_file hook op.project_name op.reference world = (reqs, Except.ok (Json.obj fs)))
    (hlk : fs.lookup "file" = some (Json.str s))
    (hs : s ≠ "")
    (hb : b64decode s = Except.ok bytes) :
    pullDataExecute op conn world =
      (reqs, [(op.output_path, bytes)], Except.ok op.output_path) := by
  have hget : dictGet fs "file" = Json.str s := by simp [dictGet, hlk]
  have htruthy : pyTruthy (dictGet fs "file") = true := by simp [hget, pyTruthy, hs]
  simp only [pullDataExecute, h, hg, htruthy, hget, hb]
  simp [pyTruthy, hs]

/-- Claim C2 (code evidence): on a get-file response with no `file` field the
pull-data operator takes the missing-data branch and writes no file — but the
exception actually raised is Python's `NameError` for the name
`AirflowException` (never imported by the operators module), not the intended
missing-data `AirflowException`. -/
theorem c2_missing_file_raises_name_error :
    pullDataExecute ⟨"p", "r", "/tmp/out"⟩ ⟨some "http://h", some "k"⟩
      (fun _ => HttpResult.got ⟨200, "OK", "\x7b\x7d", Except.ok (Json.obj [])⟩) =
      ([⟨"POST", "http://h/find/get_file",
         [("access_token", "k"), ("Content-Type", "application/json"),
          ("Accept", "application/json")],
         "\x7b\"project_name\": \"p\", \"reference\": \"r\"\x7d"⟩],
       [], Except.error (PyError.nameError "AirflowException")) := by
  rfl

/-- Claim C3: for every get-file response whose `file` field is a non-empty
string that base64-decodes to `bytes`, the pull-data operator writes exactly
`bytes` to `output_path` (and nothing else) and returns `output_path`. -/
theorem c3_pull_data_writes_decoded_bytes (op : PullDataOperator) (conn : Connection)
    (hook : Hook) (world : HttpWorld) (reqs : List Request) (fs : List (String × Json))
    (s : String) (bytes : List Nat)
    (h : hookInit conn = Except.ok hook)
    (hg : get_file hook op.project_name op.reference world = (reqs, Except.ok (Json.obj fs)))
    (hlk : fs.lookup "file" = some (Json.str s))
    (hs : s ≠ "")
    (hb : b64decode s = Except.ok bytes) :
    pullDataExecute op conn world =
      (reqs, [(op.output_path, bytes)], Except.ok op.output_path) :=
  pullDataExecute_write op conn hook world reqs fs s bytes h hg hlk hs hb

/-- Witness for C3: the field `"YQ=="` decodes to the single byte 97 and is
written to the output path. -/
theorem c3_witness :
    pullDataExecute ⟨"p", "r", "/tmp/out.bin"⟩ ⟨some "http://h", some "k"⟩
      (fun _ => HttpResult.got ⟨200, "OK", "\x7b\"file\": \"YQ==\"\x7d",
        Except.ok (Json.obj [("file", Json.str "YQ==")])⟩) =
      ([⟨"POST", "http://h/find/get_file",
         [("access_token", "k"), ("Content-Type", "application/json"),
          ("Accept", "application/json")],
         "\x7b\"project_name\": \"p\", \"reference\": \"r\"\x7d"⟩],
       [("/tmp/out.bin", [97])], Except.ok "/tmp/out.bin") :=
  c3_pull_data_writes_decoded_bytes ⟨"p", "r", "/tmp/out.bin"⟩ ⟨some "http://h", some "k"⟩
    ⟨"http://h", "k",
     [("access_token", "k"), ("Content-Type", "application/json"),
      ("Accept", "application/json")]⟩ _ _ _ "YQ==" [97] rfl rfl rfl (by decide) rfl

/-- Claim C9, amended: a get-file response whose `file` field is present but
falsy takes the same missing-data error path as one whose field is absent
(same single request, no write, same raised error); however a zero-byte file
can still be written by the operator, namely when the `file` field is a
truthy string that base64-decodes to zero bytes (such as `"=="`). -/
theorem c9_falsy_file_same_error_path :
    (∀ (op : PullDataOperator) (conn : Connection) (hook : Hook) (world : HttpWorld)
        (reqs : List Request) (fs : List (String × Json)),
      hookInit conn = Except.ok hook →
      get_file hook op.project_name op.reference world = (reqs, Except.ok (Json.obj fs)) →
      pyTruthy (dictGet fs "file") = false →
      pullDataExecute op conn world =
        (reqs, [], Except.error (PyError.nameError "AirflowException"))) ∧
    (∀ (op : PullDataOperator) (conn : Connection) (hook : Hook) (world : HttpWorld)
        (reqs : List Request) (fs : List (String × Json)),
      hookInit conn = Except.ok hook →
      get_file hook op.project_name op.reference world = (reqs, Except.ok (Json.obj fs)) →
      fs.lookup "file" = none →
      pullDataExecute op conn world =
        (reqs, [], Except.error (PyError.nameError "AirflowException"))) ∧
    (∀ (op : PullDataOperator) (conn : Connection) (hook : Hook) (world : HttpWorld)
        (reqs : List Request) (fs : List (String × Json)) (s : String),
      hookInit conn = Except.ok hook →
      get_file hook op.project_name op.reference world = (reqs, Except.ok (Json.obj fs)) →
      fs.lookup "file" = some (Json.str s) → s ≠ "" → b64decode s = Except.ok [] →
      pullDataExecute op conn world =
        (reqs, [(op.output_path, [])], Except.ok op.output_path)) := by
  refine ⟨?_, ?_, ?_⟩
  · intro op conn hook world reqs fs h hg hfalsy
    exact pullDataExecute_falsy_file op conn hook world reqs fs h hg hfalsy
  · intro op conn hook world reqs fs h hg habsent
    exact pullDataExecute_falsy_file op conn hook world reqs fs h hg
      (by simp [dictGet, habsent, pyTruthy])
  · intro op conn hook world reqs fs s h hg hlk hs hb
    exact pullDataExecute_write op conn hook world reqs fs s [] h hg hlk hs hb

/-- Witness for C9: the empty-string field, the absent field, and the
all-padding field `"=="` on a concrete profile. -/
theorem c9_witness :
    pullDataExecute ⟨"p", "r", "/tmp/out"⟩ ⟨some "http://h", some "k"⟩
        (fun _ => HttpResult.got ⟨200, "OK", "\x7b\"file\": \"\"\x7d",
          Except.ok (Json.obj [("file", Json.str "")])⟩) =
      ([⟨"POST", "http://h/find/get_file",
         [("access_token", "k"), ("Content-Type", "application/json"),
          ("Accept", "application/json")],
         "\x7b\"project_name\": \"p\", \"reference\": \"r\"\x7d"⟩],
       [], Except.error (PyError.nameError "AirflowException")) ∧
    pullDataExecute ⟨"p", "r", "/tmp/out"⟩ ⟨some "http://h", some "k"⟩
        (fun _ => HttpResult.got ⟨200, "OK", "\x7b\x7d", Except.ok (Json.obj [])⟩) =
      ([⟨"POST", "http://h/find/get_file",
         [("access_token", "k"), ("Content-Type", "application/json"),
          ("Accept", "application/json")],
         "\x7b\"project_name\": \"p\", \"reference\": \"r\"\x7d"⟩],
       [], Except.error (PyError.nameError "AirflowException")) ∧
    pullDataExecute ⟨"p", "r", "/tmp/out"⟩ ⟨some "http://h", some "k"⟩
        (fun _ => HttpResult.got ⟨200, "OK", "\x7b\"file\": \"==\"\x7d",
          Except.ok (Json.obj [("file", Json.str "==")])⟩) =
      ([⟨"POST", "http://h/find/get_file",
         [("access_token", "k"), ("Content-Type", "application/json"),
          ("Accept", "application/json")],
         "\x7b\"project_name\": \"p\", \"reference\": \"r\"\x7d"⟩],
       [("/tmp/out", [])], Except.ok "/tmp/out") :=
  ⟨c9_falsy_file_same_error_path.1 ⟨"p", "r", "/tmp/out"⟩ ⟨some "http://h", some "k"⟩
      ⟨"http://h", "k",
       [("access_token", "k"), ("Content-Type", "application/json"),
        ("Accept", "application/json")]⟩ _ _ _ rfl rfl rfl,
   c9_falsy_file_same_error_path.2.1 ⟨"p", "r", "/tmp/out"⟩ ⟨some "http://h", some "k"⟩
      ⟨"http://h", "k",
       [("access_token", "k"), ("Content-Type", "application/json"),
        ("Accept", "application/json")]⟩ _ _ _ rfl rfl rfl,
   c9_falsy_file_same_error_path.2.2 ⟨"p", "r", "/tmp/out"⟩ ⟨some "http://h", some "k"⟩
      ⟨"http://h", "k",
       [("access_token", "k"), ("Content-Type", "application/json"),
        ("Accept", "application/json")]⟩ _ _ _ "==" rfl rfl rfl (by decide) rfl⟩

/-- Counterexample to C9 as stated: the truthy all-padding field `"=="`
base64-decodes to zero bytes under Python's lenient decoder, so the operator
does write a zero-byte file. -/
theorem c9_counterexample :
    pullDataExecute ⟨"p", "r", "/tmp/out.bin"⟩ ⟨some "http://h", some "k"⟩
      (fun _ => HttpResult.got ⟨200, "OK", "\x7b\"file\": \"==\"\x7d",
        Except.ok (Json.obj [("file", Json.str "==")])⟩) =
      ([⟨"POST", "http://h/find/get_file",
         [("access_token", "k"), ("Content-Type", "application/json"),
          ("Accept", "application/json")],
         "\x7b\"project_name\": \"p\", \"reference\": \"r\"\x7d"⟩],
       [("/tmp/out.bin", [])], Except.ok "/tmp/out.bin") := by
  rfl

end FlightPath
